import Mathlib

/-!
Verification of the todo-list Flask application (`src/app.py`) against its
natural-language specification.

The embedding below translates the Python source into Lean:

* SQLAlchemy rows become Lean structures (`User`, `Task`); the two tables
  become `List User` / `List Task`, with primary-key lookup modelled as
  `List.find?` on the `id` field (`Task.query.get_or_404`,
  `User.query.filter_by(...).first()`).
* `datetime.utcnow()` timestamps are abstracted as `Nat` values passed
  explicitly to each handler (`now`); auto-increment primary keys are passed
  as `newId`.
* Password hashing (`werkzeug.security`) is external to the repository, so
  handlers are parameterised by a hash function `hash : String → String`
  and a verifier `checkPw : String → String → Bool` (hash, candidate).
* Each Flask handler becomes a pure function from its inputs and the current
  store/session state to the new state, the accumulated `flash` messages and
  an HTTP-level `Response` (redirect / rendered template / 404 page).
* Python `str.strip()` is modelled on the ASCII whitespace characters
  (space, \t, \n, \r, \x0b, \x0c); Python `len` counts code points, which
  matches `String.length`.
-/

namespace TodoApp

/-- A `flash(message, category)` call in the source. -/
structure Flash where
  message : String
  category : String
deriving DecidableEq, Repr

/-- The observable HTTP outcome of a handler: `redirect(url_for(endpoint))`,
`render_template(template)`, or the 404 page raised by `get_or_404`. -/
inductive Response where
  | redirect (endpoint : String)
  | render (template : String)
  | notFound
deriving DecidableEq, Repr

/-- HTTP method of a request, for routes accepting both GET and POST. -/
inductive Method where
  | get
  | post
deriving DecidableEq, Repr

/-- Row of the `User` table (src/app.py lines 42-49): integer primary key,
unique username, password hash, creation timestamp. -/
structure User where
  id : Nat
  username : String
  password_hash : String
  created_at : Nat
deriving DecidableEq, Repr

/-- Row of the `Task` table (src/app.py lines 62-69). -/
structure Task where
  id : Nat
  title : String
  description : String
  completed : Bool
  created_at : Nat
  updated_at : Nat
  user_id : Nat
deriving DecidableEq, Repr

/-- The ASCII whitespace characters removed by Python `str.strip()`. -/
def isSpaceChar (c : Char) : Bool :=
  c == ' ' || c == '\t' || c == '\n' || c == '\r' ||
  c == Char.ofNat 11 || c == Char.ofNat 12

/-- Drop leading and trailing whitespace characters from a character list. -/
def stripL (l : List Char) : List Char :=
  ((l.dropWhile isSpaceChar).reverse.dropWhile isSpaceChar).reverse

/-- Python `str.strip()` (restricted to ASCII whitespace): drop leading and
trailing whitespace characters. -/
def pyStrip (s : String) : String :=
  String.mk (stripL s.toList)

/-- The code-point ranges of Unicode general category Nd (decimal digit),
as of Unicode 15.1 — the table shipped with current CPython.  Python's
`re.search(r'\d', s)` on `str` matches exactly the characters in this
category. -/
def ndRanges : List (Nat × Nat) :=
  [(0x30, 0x39), (0x660, 0x669), (0x6F0, 0x6F9), (0x7C0, 0x7C9),
   (0x966, 0x96F), (0x9E6, 0x9EF), (0xA66, 0xA6F), (0xAE6, 0xAEF),
   (0xB66, 0xB6F), (0xBE6, 0xBEF), (0xC66, 0xC6F), (0xCE6, 0xCEF),
   (0xD66, 0xD6F), (0xDE6, 0xDEF), (0xE50, 0xE59), (0xED0, 0xED9),
   (0xF20, 0xF29), (0x1040, 0x1049), (0x1090, 0x1099), (0x17E0, 0x17E9),
   (0x1810, 0x1819), (0x1946, 0x194F), (0x19D0, 0x19D9), (0x1A80, 0x1A89),
   (0x1A90, 0x1A99), (0x1B50, 0x1B59), (0x1BB0, 0x1BB9), (0x1C40, 0x1C49),
   (0x1C50, 0x1C59), (0xA620, 0xA629), (0xA8D0, 0xA8D9), (0xA900, 0xA909),
   (0xA9D0, 0xA9D9), (0xA9F0, 0xA9F9), (0xAA50, 0xAA59), (0xABF0, 0xABF9),
   (0xFF10, 0xFF19), (0x104A0, 0x104A9), (0x10D30, 0x10D39),
   (0x11066, 0x1106F), (0x110F0, 0x110F9), (0x11136, 0x1113F),
   (0x111D0, 0x111D9), (0x112F0, 0x112F9), (0x11450, 0x11459),
   (0x114D0, 0x114D9), (0x11650, 0x11659), (0x116C0, 0x116C9),
   (0x11730, 0x11739), (0x118E0, 0x118E9), (0x11950, 0x11959),
   (0x11C50, 0x11C59), (0x11D50, 0x11D59), (0x11DA0, 0x11DA9),
   (0x11F50, 0x11F59), (0x16A60, 0x16A69), (0x16AC0, 0x16AC9),
   (0x16B50, 0x16B59), (0x1D7CE, 0x1D7FF), (0x1E140, 0x1E149),
   (0x1E2F0, 0x1E2F9), (0x1E4F0, 0x1E4F9), (0x1E950, 0x1E959),
   (0x1FBF0, 0x1FBF9)]

/-- A Unicode decimal digit (category Nd): what Python's `\d` matches on a
`str` pattern. -/
def isNdDigit (c : Char) : Bool :=
  ndRanges.any (fun r => r.1 ≤ c.toNat && c.toNat ≤ r.2)

/-- `validate_password` (src/app.py lines 75-85).  `re.search(r'[A-Z]', p)`
searches for any character of the class anywhere in the string, modelled by
`List.any` over the code points.  `[A-Z]` and `[a-z]` denote exactly those
ASCII code points in Python as well; `\d` matches any Unicode decimal digit
(category Nd), modelled by `isNdDigit`. -/
def validate_password (password : String) : Bool × String :=
  if password.length < 8 then
    (false, "Password must be at least 8 characters long")
  else if !(password.toList.any fun c => 'A' ≤ c && c ≤ 'Z') then
    (false, "Password must contain at least one uppercase letter")
  else if !(password.toList.any fun c => 'a' ≤ c && c ≤ 'z') then
    (false, "Password must contain at least one lowercase letter")
  else if !(password.toList.any isNdDigit) then
    (false, "Password must contain at least one number")
  else
    (true, "Password is valid")

/-- A character of the class `[a-zA-Z0-9_]`. -/
def usernameChar (c : Char) : Bool :=
  ('a' ≤ c && c ≤ 'z') || ('A' ≤ c && c ≤ 'Z') || ('0' ≤ c && c ≤ '9') || c == '_'

/-- Python `re.match(r'^[a-zA-Z0-9_]+$', s)` as a Boolean.  In Python,
`$` (without `re.MULTILINE`) matches at the end of the string **or just
before a single newline at the end of the string**, so a trailing `'\n'`
is tolerated: the match succeeds iff the string minus an optional single
trailing newline is a nonempty run of class characters. -/
def matchUsernameRe (s : String) : Bool :=
  let core := if s.toList.getLast? = some '\n' then s.toList.dropLast else s.toList
  !core.isEmpty && core.all usernameChar

/-- `validate_username` (src/app.py lines 87-95). -/
def validate_username (username : String) : Bool × String :=
  if username.length < 3 then
    (false, "Username must be at least 3 characters long")
  else if username.length > 20 then
    (false, "Username must be less than 20 characters")
  else if !matchUsernameRe username then
    (false, "Username can only contain letters, numbers, and underscores")
  else
    (true, "Username is valid")

/-- SQL `LIKE` pattern matching as implemented by SQLite for ASCII text:
`%` matches any (possibly empty) sequence of characters, `_` matches any
single character, and literal characters compare ASCII case-insensitively.
`likeMatch pattern text` decides `text LIKE pattern`. -/
def likeMatch : List Char → List Char → Bool
  | [], cs => cs.isEmpty
  | p :: ps, cs =>
    if p = '%' then (List.range (cs.length + 1)).any (fun i => likeMatch ps (cs.drop i))
    else
      match cs with
      | [] => false
      | c :: cs2 => (p == '_' || p.toLower == c.toLower) && likeMatch ps cs2

/-- `Task.title.contains(search_query)` (src/app.py line 220): SQLAlchemy
renders `column.contains(q)` as `title LIKE '%q%'` without escaping, so the
query string is spliced into the pattern as-is and any `%` or `_` it holds
acts as a wildcard. -/
def titleLike (title q : String) : Bool :=
  likeMatch ('%' :: (q.toList ++ ['%'])) title.toList

/-- `Task.created_at.desc()`: `a` may precede `b` iff `a` was created no
earlier than `b`. -/
def taskNewerFirst (a b : Task) : Prop := b.created_at ≤ a.created_at

instance : DecidableRel taskNewerFirst :=
  fun a b => Nat.decLe b.created_at a.created_at

instance : IsTotal Task taskNewerFirst :=
  ⟨fun a b => Nat.le_total b.created_at a.created_at⟩

instance : IsTrans Task taskNewerFirst :=
  ⟨fun _ _ _ h1 h2 => Nat.le_trans h2 h1⟩

/-- The task-listing part of the `dashboard` handler (src/app.py lines
215-222): filter to the session user's rows, apply the `LIKE` title filter
when the stripped search string is non-empty, and order by `created_at`
descending. -/
def dashboard_tasks (tasks : List Task) (uid : Nat) (search_raw : String) : List Task :=
  let search_query := pyStrip search_raw
  let base := tasks.filter (fun t => t.user_id == uid)
  let filtered := if search_query = "" then base
    else base.filter (fun t => titleLike t.title search_query)
  List.insertionSort taskNewerFirst filtered

/-- Result of a task-mutating handler: new `Task` table, flashes, response. -/
structure TaskOut where
  tasks : List Task
  flashes : List Flash
  response : Response
deriving DecidableEq, Repr

/-- Result of `register`: new `User` table, session, flashes, response.  The
session is `some (user_id, username)` when authenticated, `none` otherwise. -/
structure AuthOut where
  users : List User
  sess : Option (Nat × String)
  flashes : List Flash
  response : Response
deriving DecidableEq, Repr

/-- Result of `login`: new session, flashes, response (`login` never touches
the `User` table). -/
structure SessOut where
  sess : Option (Nat × String)
  flashes : List Flash
  response : Response
deriving DecidableEq, Repr

/-- `Task.query.get_or_404(task_id)`: primary-key lookup. -/
def getTask (tasks : List Task) (task_id : Nat) : Option Task :=
  tasks.find? (fun t => t.id == task_id)

/-- SQLAlchemy mutation of the row found by primary key: every row whose id
is `task_id` is replaced by `t'` (the primary key makes it unique). -/
def replaceById (tasks : List Task) (task_id : Nat) (t' : Task) : List Task :=
  tasks.map (fun x => if x.id == task_id then t' else x)

/-- `add_task` handler (src/app.py lines 238-270), POST only, after the
`login_required` gate: strip the form fields, validate, then either flash an
error or insert the new row (id `newId`, `completed` defaulting to false,
both timestamps defaulting to `now`).  Every path redirects to dashboard. -/
def add_task (tasks : List Task) (uid : Nat) (rawTitle rawDescription : String)
    (now newId : Nat) : TaskOut :=
  let title := pyStrip rawTitle
  let description := pyStrip rawDescription
  if title = "" then
    ⟨tasks, [⟨"Task title is required.", "error"⟩], Response.redirect "dashboard"⟩
  else if title.length > 200 then
    ⟨tasks, [⟨"Task title must be less than 200 characters.", "error"⟩],
      Response.redirect "dashboard"⟩
  else if description.length > 200 then
    ⟨tasks, [⟨"Task description must be less than 200 characters.", "error"⟩],
      Response.redirect "dashboard"⟩
  else
    ⟨tasks ++ [⟨newId, title, description, false, now, now, uid⟩],
      [⟨"Task added successfully!", "success"⟩], Response.redirect "dashboard"⟩

/-- `edit_task` handler (src/app.py lines 272-310) after `login_required`:
`get_or_404`, ownership gate, then on POST strip + validate the form and
update the row in place (refreshing `updated_at` to `now`); on GET, or on a
validation failure, render the edit page without touching the table. -/
def edit_task (tasks : List Task) (uid : Nat) (task_id : Nat) (method : Method)
    (rawTitle rawDescription : String) (now : Nat) : TaskOut :=
  match getTask tasks task_id with
  | none => ⟨tasks, [], Response.notFound⟩
  | some task =>
    if task.user_id ≠ uid then
      ⟨tasks, [⟨"You can only edit your own tasks.", "error"⟩],
        Response.redirect "dashboard"⟩
    else
      match method with
      | Method.get => ⟨tasks, [], Response.render "edit_task.html"⟩
      | Method.post =>
        let title := pyStrip rawTitle
        let description := pyStrip rawDescription
        if title = "" then
          ⟨tasks, [⟨"Task title is required.", "error"⟩],
            Response.render "edit_task.html"⟩
        else if title.length > 200 then
          ⟨tasks, [⟨"Task title must be less than 200 characters.", "error"⟩],
            Response.render "edit_task.html"⟩
        else if description.length > 200 then
          ⟨tasks, [⟨"Task description must be less than 200 characters.", "error"⟩],
            Response.render "edit_task.html"⟩
        else
          ⟨replaceById tasks task_id
              { task with title := title, description := description, updated_at := now },
            [⟨"Task updated successfully!", "success"⟩], Response.redirect "dashboard"⟩

/-- `toggle_task` handler (src/app.py lines 312-334) after `login_required`:
`get_or_404`, ownership gate, then flip `completed` and refresh
`updated_at`; flash names the new state. -/
def toggle_task (tasks : List Task) (uid : Nat) (task_id : Nat) (now : Nat) : TaskOut :=
  match getTask tasks task_id with
  | none => ⟨tasks, [], Response.notFound⟩
  | some task =>
    if task.user_id ≠ uid then
      ⟨tasks, [⟨"You can only modify your own tasks.", "error"⟩],
        Response.redirect "dashboard"⟩
    else
      let task' := { task with completed := !task.completed, updated_at := now }
      let status := if task'.completed then "completed" else "marked as incomplete"
      ⟨replaceById tasks task_id task',
        [⟨"Task \"" ++ task.title ++ "\" " ++ status ++ "!", "success"⟩],
        Response.redirect "dashboard"⟩

/-- `delete_task` handler (src/app.py lines 336-355) after `login_required`:
`get_or_404`, ownership gate, then delete the row. -/
def delete_task (tasks : List Task) (uid : Nat) (task_id : Nat) : TaskOut :=
  match getTask tasks task_id with
  | none => ⟨tasks, [], Response.notFound⟩
  | some task =>
    if task.user_id ≠ uid then
      ⟨tasks, [⟨"You can only delete your own tasks.", "error"⟩],
        Response.redirect "dashboard"⟩
    else
      ⟨tasks.filter (fun x => x.id != task_id),
        [⟨"Task \"" ++ task.title ++ "\" deleted successfully!", "success"⟩],
        Response.redirect "dashboard"⟩

/-- `register` handler, POST branch (src/app.py lines 117-168).  An already
authenticated session is redirected away; otherwise the form is validated in
source order (empty username, empty password, `validate_username`,
`validate_password`, confirmation match, uniqueness), and on success a row
`⟨newId, username, hash password, now⟩` is inserted and the browser is
redirected to the login page.  No path writes to the session. -/
def register (users : List User) (hash : String → String)
    (sess : Option (Nat × String)) (rawUsername password confirm_password : String)
    (newId now : Nat) : AuthOut :=
  match sess with
  | some s => ⟨users, some s, [], Response.redirect "dashboard"⟩
  | none =>
    let username := pyStrip rawUsername
    if username = "" then
      ⟨users, none, [⟨"Username is required.", "error"⟩], Response.render "register.html"⟩
    else if password = "" then
      ⟨users, none, [⟨"Password is required.", "error"⟩], Response.render "register.html"⟩
    else if !(validate_username username).1 then
      ⟨users, none, [⟨(validate_username username).2, "error"⟩],
        Response.render "register.html"⟩
    else if !(validate_password password).1 then
      ⟨users, none, [⟨(validate_password password).2, "error"⟩],
        Response.render "register.html"⟩
    else if password ≠ confirm_password then
      ⟨users, none, [⟨"Passwords do not match.", "error"⟩], Response.render "register.html"⟩
    else if (users.find? (fun u => u.username == username)).isSome then
      ⟨users, none, [⟨"Username already exists. Please choose a different one.", "error"⟩],
        Response.render "register.html"⟩
    else
      ⟨users ++ [⟨newId, username, hash password, now⟩], none,
        [⟨"Registration successful! Please log in.", "success"⟩],
        Response.redirect "login"⟩

/-- The authentication core of the `login` handler (src/app.py lines
184-186): look the user up by username, verify the password against the
stored hash, return the user on success and nothing otherwise. -/
def authenticate (users : List User) (checkPw : String → String → Bool)
    (username password : String) : Option User :=
  match users.find? (fun u => u.username == username) with
  | some user => if checkPw user.password_hash password then some user else none
  | none => none

/-- `login` handler, POST branch (src/app.py lines 170-195): an already
authenticated session is redirected away; otherwise the username is
stripped, blank fields are rejected, and `authenticate` either fills the
session and redirects to the dashboard or yields the single generic failure
(`Invalid username or password.`) for both an unknown username and a wrong
password. -/
def login (users : List User) (checkPw : String → String → Bool)
    (sess : Option (Nat × String)) (rawUsername password : String) : SessOut :=
  match sess with
  | some s => ⟨some s, [], Response.redirect "dashboard"⟩
  | none =>
    let username := pyStrip rawUsername
    if username = "" ∨ password = "" then
      ⟨none, [⟨"Username and password are required.", "error"⟩],
        Response.render "login.html"⟩
    else
      match authenticate users checkPw username password with
      | some user =>
        ⟨some (user.id, user.username),
          [⟨"Welcome back, " ++ user.username ++ "!", "success"⟩],
          Response.redirect "dashboard"⟩
      | none =>
        ⟨none, [⟨"Invalid username or password.", "error"⟩],
          Response.render "login.html"⟩

/-! ### Helper lemmas -/

theorem getTask_id (tasks : List Task) (i : Nat) (t : Task)
    (h : getTask tasks i = some t) : t.id = i := by
  have := List.find?_some h
  simpa using this

theorem getTask_mem (tasks : List Task) (i : Nat) (t : Task)
    (h : getTask tasks i = some t) : t ∈ tasks :=
  List.mem_of_find?_eq_some h

theorem getTask_replaceById (tasks : List Task) (i : Nat) (t t' : Task)
    (h : getTask tasks i = some t) (hid : t'.id = i) :
    getTask (replaceById tasks i t') i = some t' := by
  induction tasks with
  | nil => simp [getTask] at h
  | cons x xs ih =>
    by_cases hx : x.id = i
    · simp [getTask, replaceById, List.find?_cons, hx, hid]
    · have hxb : (x.id == i) = false := by simpa using hx
      simp only [getTask, List.find?_cons, hxb, cond_false] at h
      simp only [getTask, replaceById, List.map_cons, hxb, Bool.false_eq_true,
        if_false, List.find?_cons, cond_false]
      simpa [getTask, replaceById] using ih h

/-! ### C4: toggle flips the completed flag, refreshes the timestamp, and is
an involution on the completed flag -/

/-- C4: for a task `t` owned by the requester, one application of
`toggle_task` stores a row with the completed flag flipped and `updated_at`
set to the request time, and a second application restores the original
completed flag. -/
theorem c4_toggle_involution (tasks : List Task) (uid task_id : Nat) (t : Task)
    (n1 n2 : Nat) (hfind : getTask tasks task_id = some t) (hown : t.user_id = uid) :
    getTask (toggle_task tasks uid task_id n1).tasks task_id
        = some { t with completed := !t.completed, updated_at := n1 } ∧
    getTask (toggle_task (toggle_task tasks uid task_id n1).tasks uid task_id n2).tasks
        task_id = some { t with completed := t.completed, updated_at := n2 } := by
  have hid : t.id = task_id := getTask_id tasks task_id t hfind
  have h1 : getTask (toggle_task tasks uid task_id n1).tasks task_id
      = some { t with completed := !t.completed, updated_at := n1 } := by
    have hrep := getTask_replaceById tasks task_id t
      { t with completed := !t.completed, updated_at := n1 } hfind hid
    simp only [toggle_task, hfind]
    rw [if_neg (fun h => h hown)]
    exact hrep
  refine ⟨h1, ?_⟩
  revert h1
  generalize (toggle_task tasks uid task_id n1).tasks = ts1
  intro h1
  have h2 := getTask_replaceById ts1 task_id
    { t with completed := !t.completed, updated_at := n1 }
    { t with completed := !(!t.completed), updated_at := n2 } h1 hid
  simp only [toggle_task, h1]
  rw [if_neg (fun h => h hown)]
  simpa [Bool.not_not] using h2

/-- Witness for C4 at a concrete owned task. -/
theorem c4_toggle_involution_witness :
    getTask (toggle_task [⟨1, "x", "", false, 0, 0, 7⟩] 7 1 5).tasks 1
        = some ⟨1, "x", "", true, 0, 5, 7⟩ ∧
    getTask (toggle_task (toggle_task [⟨1, "x", "", false, 0, 0, 7⟩] 7 1 5).tasks 7 1 9).tasks 1
        = some ⟨1, "x", "", false, 0, 9, 7⟩ :=
  c4_toggle_involution [⟨1, "x", "", false, 0, 0, 7⟩] 7 1 ⟨1, "x", "", false, 0, 0, 7⟩ 5 9
    (by decide) (by decide)

/-! ### C1: the ownership gate refuses with a redirect and notice and leaves
the stored rows untouched -/

theorem ownership_gate_refusal (tasks : List Task) (uid task_id : Nat) (t : Task)
    (method : Method) (rawTitle rawDescription : String) (now : Nat)
    (hfind : getTask tasks task_id = some t) (hown : t.user_id ≠ uid) :
    edit_task tasks uid task_id method rawTitle rawDescription now
        = ⟨tasks, [⟨"You can only edit your own tasks.", "error"⟩],
            Response.redirect "dashboard"⟩ ∧
    toggle_task tasks uid task_id now
        = ⟨tasks, [⟨"You can only modify your own tasks.", "error"⟩],
            Response.redirect "dashboard"⟩ ∧
    delete_task tasks uid task_id
        = ⟨tasks, [⟨"You can only delete your own tasks.", "error"⟩],
            Response.redirect "dashboard"⟩ := by
  refine ⟨?_, ?_, ?_⟩
  · simp only [edit_task, hfind]
    rw [if_pos hown]
  · simp only [toggle_task, hfind]
    rw [if_pos hown]
  · simp only [delete_task, hfind]
    rw [if_pos hown]

/-- C1: for an authenticated session `uid` and a task `t` whose `user_id` is
not `uid`, each of `edit_task` (either method), `toggle_task` and
`delete_task` returns the task table unchanged (so every field of the row of
`t` keeps its prior value), flashes an error notice, and redirects to the
dashboard rather than raising a hard error. -/
theorem c1_ownership_refusal (tasks : List Task) (uid task_id : Nat) (t : Task)
    (method : Method) (rawTitle rawDescription : String) (now : Nat)
    (hfind : getTask tasks task_id = some t) (hown : t.user_id ≠ uid) :
    edit_task tasks uid task_id method rawTitle rawDescription now
        = ⟨tasks, [⟨"You can only edit your own tasks.", "error"⟩],
            Response.redirect "dashboard"⟩ ∧
    toggle_task tasks uid task_id now
        = ⟨tasks, [⟨"You can only modify your own tasks.", "error"⟩],
            Response.redirect "dashboard"⟩ ∧
    delete_task tasks uid task_id
        = ⟨tasks, [⟨"You can only delete your own tasks.", "error"⟩],
            Response.redirect "dashboard"⟩ :=
  ownership_gate_refusal tasks uid task_id t method rawTitle rawDescription now hfind hown

/-- Witness for C1: user 1 requests task 1, which belongs to user 2. -/
theorem c1_ownership_refusal_witness :
    toggle_task [⟨1, "x", "", false, 0, 0, 2⟩] 1 1 5
        = ⟨[⟨1, "x", "", false, 0, 0, 2⟩],
            [⟨"You can only modify your own tasks.", "error"⟩],
            Response.redirect "dashboard"⟩ ∧
    delete_task [⟨1, "x", "", false, 0, 0, 2⟩] 1 1
        = ⟨[⟨1, "x", "", false, 0, 0, 2⟩],
            [⟨"You can only delete your own tasks.", "error"⟩],
            Response.redirect "dashboard"⟩ :=
  (c1_ownership_refusal [⟨1, "x", "", false, 0, 0, 2⟩] 1 1 ⟨1, "x", "", false, 0, 0, 2⟩
    Method.post "y" "" 5 (by decide) (by decide)).2

/-! ### C2: "no such task" versus "not your task" -/

/-- C2 counterexample: with the single task 1 owned by user 2 and an
authenticated session for user 1, a `toggle_task` request naming the missing
id 99 and one naming the foreign task 1 produce different observable
responses (404 page with no flash versus a flashed redirect), so the two
failure cases are distinguishable, contrary to the claim. -/
theorem c2_merged_failures_cex :
    ((toggle_task [⟨1, "x", "", false, 0, 0, 2⟩] 1 99 5).flashes,
     (toggle_task [⟨1, "x", "", false, 0, 0, 2⟩] 1 99 5).response)
    ≠ ((toggle_task [⟨1, "x", "", false, 0, 0, 2⟩] 1 1 5).flashes,
       (toggle_task [⟨1, "x", "", false, 0, 0, 2⟩] 1 1 5).response) := by
  decide

/-- C2 amended: the two failure cases are distinct, not merged.  A request
naming a task id with no row hits `get_or_404` and yields the hard 404 page
with no notice; a request naming an existing task owned by another user
yields a flashed redirect to the dashboard.  Both leave the table
unchanged. -/
theorem c2_distinct_failures (tasks : List Task) (uid missing_id other_id : Nat)
    (t : Task) (method : Method) (rawTitle rawDescription : String) (now : Nat)
    (hmiss : getTask tasks missing_id = none)
    (hfind : getTask tasks other_id = some t) (hown : t.user_id ≠ uid) :
    (toggle_task tasks uid missing_id now = ⟨tasks, [], Response.notFound⟩ ∧
     delete_task tasks uid missing_id = ⟨tasks, [], Response.notFound⟩ ∧
     edit_task tasks uid missing_id method rawTitle rawDescription now
        = ⟨tasks, [], Response.notFound⟩) ∧
    ((toggle_task tasks uid other_id now).response = Response.redirect "dashboard" ∧
     (delete_task tasks uid other_id).response = Response.redirect "dashboard" ∧
     (edit_task tasks uid other_id method rawTitle rawDescription now).response
        = Response.redirect "dashboard") ∧
    (Response.notFound ≠ Response.redirect "dashboard") := by
  have hc := ownership_gate_refusal tasks uid other_id t method rawTitle rawDescription now
    hfind hown
  refine ⟨⟨?_, ?_, ?_⟩, ⟨?_, ?_, ?_⟩, by decide⟩
  · simp [toggle_task, hmiss]
  · simp [delete_task, hmiss]
  · simp [edit_task, hmiss]
  · rw [hc.2.1]
  · rw [hc.2.2]
  · rw [hc.1]

/-- Witness for C2's amended theorem at the concrete one-task store. -/
theorem c2_distinct_failures_witness :
    toggle_task [⟨1, "x", "", false, 0, 0, 2⟩] 1 99 5
        = ⟨[⟨1, "x", "", false, 0, 0, 2⟩], [], Response.notFound⟩ ∧
    (toggle_task [⟨1, "x", "", false, 0, 0, 2⟩] 1 1 5).response
        = Response.redirect "dashboard" :=
  ⟨(c2_distinct_failures [⟨1, "x", "", false, 0, 0, 2⟩] 1 99 1 ⟨1, "x", "", false, 0, 0, 2⟩
      Method.post "y" "" 5 (by decide) (by decide) (by decide)).1.1,
   (c2_distinct_failures [⟨1, "x", "", false, 0, 0, 2⟩] 1 99 1 ⟨1, "x", "", false, 0, 0, 2⟩
      Method.post "y" "" 5 (by decide) (by decide) (by decide)).2.1.1⟩

/-! ### Stripping lemmas -/

theorem dropWhile_dropWhile {α : Type} (p : α → Bool) (l : List α) :
    (l.dropWhile p).dropWhile p = l.dropWhile p := by
  induction l with
  | nil => rfl
  | cons a l ih =>
    by_cases h : p a = true
    · simp [List.dropWhile_cons, h, ih]
    · simp [List.dropWhile_cons, h]

theorem dropWhile_append_singleton {α : Type} (p : α → Bool) (l : List α) (a : α)
    (ha : p a = false) :
    List.dropWhile p (l ++ [a]) = List.dropWhile p l ++ [a] := by
  induction l with
  | nil => simp [List.dropWhile_cons, ha]
  | cons x l ih =>
    by_cases h : p x = true
    · simp [List.dropWhile_cons, h, ih]
    · simp [List.dropWhile_cons, h]

theorem dropWhile_reverse_dropWhile {α : Type} (p : α → Bool) (m : List α)
    (h : m.dropWhile p = m) :
    ((m.reverse.dropWhile p).reverse).dropWhile p = (m.reverse.dropWhile p).reverse := by
  cases m with
  | nil => simp
  | cons a m =>
    have hpa : p a = false := by
      by_contra hpa
      rw [Bool.not_eq_false] at hpa
      rw [List.dropWhile_cons, if_pos hpa] at h
      have hlen := (List.dropWhile_sublist (l := m) p).length_le
      rw [h] at hlen
      simp at hlen
    rw [List.reverse_cons, dropWhile_append_singleton p m.reverse a hpa,
      List.reverse_append]
    simp only [List.reverse_cons, List.reverse_nil, List.nil_append,
      List.singleton_append]
    rw [List.dropWhile_cons, if_neg (by simp [hpa])]

theorem stripL_idem (l : List Char) : stripL (stripL l) = stripL l := by
  have h1 : ((l.dropWhile isSpaceChar).dropWhile isSpaceChar) = l.dropWhile isSpaceChar :=
    dropWhile_dropWhile isSpaceChar l
  have h2 : (stripL l).dropWhile isSpaceChar = stripL l :=
    dropWhile_reverse_dropWhile isSpaceChar (l.dropWhile isSpaceChar) h1
  show (((stripL l).dropWhile isSpaceChar).reverse.dropWhile isSpaceChar).reverse = stripL l
  rw [h2]
  show ((((l.dropWhile isSpaceChar).reverse.dropWhile isSpaceChar).reverse).reverse.dropWhile
      isSpaceChar).reverse = stripL l
  rw [List.reverse_reverse, dropWhile_dropWhile]
  rfl

theorem pyStrip_idem (s : String) : pyStrip (pyStrip s) = pyStrip s := by
  show String.mk (stripL (String.mk (stripL s.toList)).toList) = String.mk (stripL s.toList)
  exact congrArg String.mk (stripL_idem s.toList)

/-! ### C9: registration never authenticates -/

/-- C9: `register` leaves the session exactly as it found it on every path
(no `user_id`/`username` is ever written), and whenever it actually creates
a user row the response is a redirect to the login page, so the browser
stays anonymous until a separate login. -/
theorem c9_register_keeps_session (users : List User) (hash : String → String)
    (sess : Option (Nat × String)) (rawUsername password confirm_password : String)
    (newId now : Nat) :
    (register users hash sess rawUsername password confirm_password newId now).sess = sess ∧
    ((register users hash sess rawUsername password confirm_password newId now).users ≠ users →
      (register users hash sess rawUsername password confirm_password newId now).response
          = Response.redirect "login" ∧
      (register users hash sess rawUsername password confirm_password newId now).flashes
          = [⟨"Registration successful! Please log in.", "success"⟩]) := by
  cases sess with
  | some s => exact ⟨rfl, fun h => absurd rfl h⟩
  | none =>
    simp only [register]
    split_ifs with h1 h2 h3 h4 h5 h6
    · exact ⟨rfl, fun h => absurd rfl h⟩
    · exact ⟨rfl, fun h => absurd rfl h⟩
    · exact ⟨rfl, fun h => absurd rfl h⟩
    · exact ⟨rfl, fun h => absurd rfl h⟩
    · exact ⟨rfl, fun h => absurd rfl h⟩
    · exact ⟨rfl, fun h => absurd rfl h⟩
    · exact ⟨rfl, fun _ => ⟨rfl, rfl⟩⟩

/-- Witness for C9: a successful registration that does create a row. -/
theorem c9_register_keeps_session_witness :
    (register [] id none "alice_1" "Passw0rd" "Passw0rd" 1 0).sess = none ∧
    (register [] id none "alice_1" "Passw0rd" "Passw0rd" 1 0).response
        = Response.redirect "login" :=
  ⟨(c9_register_keeps_session [] id none "alice_1" "Passw0rd" "Passw0rd" 1 0).1,
   ((c9_register_keeps_session [] id none "alice_1" "Passw0rd" "Passw0rd" 1 0).2
     (by decide)).1⟩

/-! ### C6: registrations are unique per case-sensitive username -/

/-- C6: with validation passing and matching confirmation, registration into
a store with no user of the *string-equal* username appends exactly one row
and succeeds, while a second registration with the same username fails with
the duplicate-username notice and adds no row.  Username comparison is
`String` equality, so usernames differing only in letter case are distinct
(the witness registers `"alice_1"` alongside an existing `"ALICE_1"`). -/
theorem c6_register_unique (users : List User) (hash : String → String)
    (rawUsername password confirm_password : String) (newId now : Nat)
    (hu : (validate_username (pyStrip rawUsername)).1 = true)
    (hp : (validate_password password).1 = true)
    (hc : password = confirm_password) :
    ((∀ u ∈ users, u.username ≠ pyStrip rawUsername) →
      register users hash none rawUsername password confirm_password newId now
        = ⟨users ++ [⟨newId, pyStrip rawUsername, hash password, now⟩], none,
            [⟨"Registration successful! Please log in.", "success"⟩],
            Response.redirect "login"⟩) ∧
    ((∃ u ∈ users, u.username = pyStrip rawUsername) →
      register users hash none rawUsername password confirm_password newId now
        = ⟨users, none,
            [⟨"Username already exists. Please choose a different one.", "error"⟩],
            Response.render "register.html"⟩) := by
  have hne : pyStrip rawUsername ≠ "" := by
    intro h
    rw [h] at hu
    exact absurd hu (by decide)
  have hpe : password ≠ "" := by
    intro h
    rw [h] at hp
    exact absurd hp (by decide)
  subst hc
  constructor
  · intro hnodup
    have hfind : (users.find? (fun u => u.username == pyStrip rawUsername)).isSome = false := by
      rw [Bool.eq_false_iff]
      intro hs
      obtain ⟨u, hu1, hu2⟩ := List.find?_isSome.mp hs
      exact hnodup u hu1 (by simpa using hu2)
    simp [register, hne, hpe, hu, hp, hfind]
  · intro ⟨u, hu1, hu2⟩
    have hfind : (users.find? (fun u => u.username == pyStrip rawUsername)).isSome = true :=
      List.find?_isSome.mpr ⟨u, hu1, by simpa using hu2⟩
    simp [register, hne, hpe, hu, hp, hfind]

/-- Witness for C6: a case-variant of an existing username is not a
duplicate and registers successfully. -/
theorem c6_register_unique_witness :
    register [⟨1, "ALICE_1", "h0", 0⟩] id none "alice_1" "Passw0rd" "Passw0rd" 2 7
      = ⟨[⟨1, "ALICE_1", "h0", 0⟩, ⟨2, "alice_1", "Passw0rd", 7⟩], none,
          [⟨"Registration successful! Please log in.", "success"⟩],
          Response.redirect "login"⟩ :=
  (c6_register_unique [⟨1, "ALICE_1", "h0", 0⟩] id "alice_1" "Passw0rd" "Passw0rd" 2 7
    (by decide) (by decide) rfl).1 (by decide)

/-! ### C5: authentication -/

theorem find?_username_unique (users : List User) (username : String) (u : User)
    (hnodup : (users.map User.username).Nodup) (hmem : u ∈ users)
    (hname : u.username = username) :
    users.find? (fun v => v.username == username) = some u := by
  induction users with
  | nil => simp at hmem
  | cons x xs ih =>
    rcases List.mem_cons.mp hmem with hx | hx
    · subst hx
      simp [List.find?_cons, hname]
    · have hxname : x.username ≠ username := by
        intro hxe
        have : u.username ∈ xs.map User.username := List.mem_map_of_mem User.username hx
        rw [hname, ← hxe] at this
        exact (List.nodup_cons.mp hnodup).1 this
      have : (x.username == username) = false := by simpa using hxname
      simp [List.find?_cons, this]
      exact ih (List.nodup_cons.mp hnodup).2 hx

/-- C5: `authenticate` returns a user exactly when that user's username is
the one supplied and the password verifies against the stored hash (the
store-wide uniqueness of usernames is the `hnodup` hypothesis); and every
failing `login` attempt with non-blank fields — unknown username and wrong
password alike — produces the one identical outcome: no session, the flash
`Invalid username or password.`, and the login page rendered again. -/
theorem c5_authenticate_iff (users : List User) (checkPw : String → String → Bool)
    (u : User) (username password : String)
    (hnodup : (users.map User.username).Nodup) :
    (authenticate users checkPw username password = some u ↔
      u ∈ users ∧ u.username = username ∧ checkPw u.password_hash password = true) ∧
    (∀ rawU pw, pyStrip rawU ≠ "" → pw ≠ "" →
      authenticate users checkPw (pyStrip rawU) pw = none →
      login users checkPw none rawU pw
        = ⟨none, [⟨"Invalid username or password.", "error"⟩],
            Response.render "login.html"⟩) := by
  constructor
  · constructor
    · intro h
      unfold authenticate at h
      rcases hf : users.find? (fun v => v.username == username) with _ | v
      · rw [hf] at h
        simp at h
      · rw [hf] at h
        rcases hcp : checkPw v.password_hash password with _ | _
        · simp [hcp] at h
        · simp [hcp] at h
          subst h
          exact ⟨List.mem_of_find?_eq_some hf, by simpa using List.find?_some hf, hcp⟩
    · intro ⟨hmem, hname, hcp⟩
      unfold authenticate
      rw [find?_username_unique users username u hnodup hmem hname]
      simp [hcp]
  · intro rawU pw hne hpe hauth
    simp [login, hne, hpe, hauth]

/-- Witness for C5: a correct login succeeds via the iff, and a login for an
unknown username yields the generic failure. -/
theorem c5_authenticate_iff_witness :
    authenticate [⟨1, "bob", "pw", 0⟩] (fun h p => h == p) "bob" "pw"
        = some ⟨1, "bob", "pw", 0⟩ ∧
    login [⟨1, "bob", "pw", 0⟩] (fun h p => h == p) none "nobody" "x"
        = ⟨none, [⟨"Invalid username or password.", "error"⟩],
            Response.render "login.html"⟩ :=
  ⟨(c5_authenticate_iff [⟨1, "bob", "pw", 0⟩] (fun h p => h == p) ⟨1, "bob", "pw", 0⟩
      "bob" "pw" (by decide)).1.mpr ⟨by decide, rfl, by decide⟩,
   (c5_authenticate_iff [⟨1, "bob", "pw", 0⟩] (fun h p => h == p) ⟨1, "bob", "pw", 0⟩
      "bob" "pw" (by decide)).2 "nobody" "x" (by decide) (by decide) (by decide)⟩

/-! ### C7: task input validation bounds -/

theorem append_singleton_ne {α : Type} (l : List α) (x : α) : l ++ [x] ≠ l := by
  intro h
  have := congrArg List.length h
  simp at this

/-- C7: `add_task` persists no row exactly when the stripped title is empty,
the stripped title exceeds 200 characters, or the stripped description
exceeds 200 characters (so inputs of exactly 200 characters are accepted,
as the witness shows); under the same condition `edit_task` leaves the
table unchanged and re-renders the edit page, and otherwise both handlers
persist the stripped values (insert for `add_task`, in-place update with a
refreshed `updated_at` for `edit_task`). -/
theorem c7_task_validation (tasks : List Task) (uid : Nat)
    (rawTitle rawDescription : String) (now newId task_id : Nat) (t : Task)
    (hfind : getTask tasks task_id = some t) (hown : t.user_id = uid) :
    ((add_task tasks uid rawTitle rawDescription now newId).tasks = tasks ↔
      (pyStrip rawTitle = "" ∨ 200 < (pyStrip rawTitle).length ∨
        200 < (pyStrip rawDescription).length)) ∧
    ((pyStrip rawTitle = "" ∨ 200 < (pyStrip rawTitle).length ∨
        200 < (pyStrip rawDescription).length) →
      (edit_task tasks uid task_id Method.post rawTitle rawDescription now).tasks = tasks ∧
      (edit_task tasks uid task_id Method.post rawTitle rawDescription now).response
          = Response.render "edit_task.html") ∧
    (¬(pyStrip rawTitle = "" ∨ 200 < (pyStrip rawTitle).length ∨
        200 < (pyStrip rawDescription).length) →
      (add_task tasks uid rawTitle rawDescription now newId).tasks
          = tasks ++ [⟨newId, pyStrip rawTitle, pyStrip rawDescription, false, now, now, uid⟩] ∧
      (edit_task tasks uid task_id Method.post rawTitle rawDescription now).tasks
          = replaceById tasks task_id
              { t with
                title := pyStrip rawTitle,
                description := pyStrip rawDescription,
                updated_at := now }) := by
  refine ⟨⟨?_, ?_⟩, ?_, ?_⟩
  · intro heq
    by_contra hrej
    push_neg at hrej
    obtain ⟨h1, h2, h3⟩ := hrej
    simp only [add_task] at heq
    rw [if_neg h1, if_neg (by omega), if_neg (by omega)] at heq
    exact append_singleton_ne tasks _ heq
  · intro hrej
    simp only [add_task]
    split_ifs with a b c
    · rfl
    · rfl
    · rfl
    · rcases hrej with h | h | h
      · exact absurd h a
      · exact absurd h (by omega)
      · exact absurd h (by omega)
  · intro hrej
    simp only [edit_task, hfind]
    rw [if_neg (fun hc => hc hown)]
    split_ifs with a b c
    · exact ⟨rfl, rfl⟩
    · exact ⟨rfl, rfl⟩
    · exact ⟨rfl, rfl⟩
    · rcases hrej with h | h | h
      · exact absurd h a
      · exact absurd h (by omega)
      · exact absurd h (by omega)
  · intro hrej
    push_neg at hrej
    obtain ⟨h1, h2, h3⟩ := hrej
    constructor
    · simp only [add_task]
      rw [if_neg h1, if_neg (by omega), if_neg (by omega)]
    · simp only [edit_task, hfind]
      rw [if_neg (fun hc => hc hown), if_neg h1, if_neg (by omega), if_neg (by omega)]

set_option maxRecDepth 40000 in
/-- Witness for C7: a title and description of exactly 200 characters are
accepted and stored. -/
theorem c7_task_validation_witness :
    (add_task [⟨5, "x", "", false, 0, 0, 1⟩] 1 (String.mk (List.replicate 200 'a'))
        (String.mk (List.replicate 200 'b')) 3 9).tasks
      = [⟨5, "x", "", false, 0, 0, 1⟩,
          ⟨9, String.mk (List.replicate 200 'a'), String.mk (List.replicate 200 'b'),
            false, 3, 3, 1⟩] := by
  have h := (c7_task_validation [⟨5, "x", "", false, 0, 0, 1⟩] 1
    (String.mk (List.replicate 200 'a')) (String.mk (List.replicate 200 'b')) 3 9 5
    ⟨5, "x", "", false, 0, 0, 1⟩ (by decide) (by decide)).2.2 (by decide)
  have ht : pyStrip (String.mk (List.replicate 200 'a')) = String.mk (List.replicate 200 'a') := by
    decide
  have hd : pyStrip (String.mk (List.replicate 200 'b')) = String.mk (List.replicate 200 'b') := by
    decide
  rw [h.1, ht, hd]
  rfl

/-! ### C10: stripping happens before validation and storage -/

/-- C10: both task handlers act on the whitespace-stripped title and
description — the handlers are invariant under pre-stripping their raw form
inputs, so the 200-character limits are enforced on the stripped values and
the stored values are the stripped ones — and a whitespace-only title is
rejected exactly as a missing title. -/
theorem c10_strip_semantics (tasks : List Task) (uid : Nat)
    (rawTitle rawDescription : String) (now newId task_id : Nat) (method : Method) :
    (add_task tasks uid rawTitle rawDescription now newId
        = add_task tasks uid (pyStrip rawTitle) (pyStrip rawDescription) now newId) ∧
    (edit_task tasks uid task_id method rawTitle rawDescription now
        = edit_task tasks uid task_id method (pyStrip rawTitle) (pyStrip rawDescription) now) ∧
    (pyStrip rawTitle = "" →
      add_task tasks uid rawTitle rawDescription now newId
        = ⟨tasks, [⟨"Task title is required.", "error"⟩], Response.redirect "dashboard"⟩) := by
  refine ⟨?_, ?_, ?_⟩
  · simp only [add_task, pyStrip_idem]
  · simp only [edit_task, pyStrip_idem]
  · intro h1
    simp only [add_task]
    rw [if_pos h1]

/-- Witness for C10: a whitespace-only title is rejected as a missing
title. -/
theorem c10_strip_semantics_witness :
    add_task [] 1 "   " "d" 0 1
      = ⟨[], [⟨"Task title is required.", "error"⟩], Response.redirect "dashboard"⟩ :=
  (c10_strip_semantics [] 1 "   " "d" 0 1 0 Method.post).2.2 (by decide)

/-! ### C8: the validator rule tables -/

theorem usernameChar_iff (c : Char) :
    usernameChar c = true ↔
      (('a' ≤ c ∧ c ≤ 'z') ∨ ('A' ≤ c ∧ c ≤ 'Z') ∨ ('0' ≤ c ∧ c ≤ '9') ∨ c = '_') := by
  simp only [usernameChar, Bool.or_eq_true, Bool.and_eq_true, decide_eq_true_eq, beq_iff_eq]
  tauto

/-- C8 counterexample: `validate_username` passes the string `"ab\n"` even
though it contains a character (the newline) that is not a letter, digit or
underscore — Python's `re.match(r'^[a-zA-Z0-9_]+$', s)` tolerates a single
trailing newline because `$` also matches just before a final newline — so
the claimed rule table (pass iff 3-20 chars, all in `[A-Za-z0-9_]`) is
false as stated. -/
theorem c8_validator_cex :
    (validate_username "ab\n").1 = true ∧
    ¬(∀ c ∈ "ab\n".toList,
        ('a' ≤ c ∧ c ≤ 'z') ∨ ('A' ≤ c ∧ c ≤ 'Z') ∨ ('0' ≤ c ∧ c ≤ '9') ∨ c = '_') := by
  refine ⟨by decide, ?_⟩
  intro h
  have := h '\n' (by decide)
  revert this
  decide

/-- C8 amended: `validate_username` passes exactly the strings of length 3
to 20 (counting every code point, a trailing newline included) whose
characters are letters, digits or underscores after discarding at most one
trailing newline, with at least one character left; `validate_password`
passes exactly the strings of length at least 8 containing an ASCII
uppercase letter (`[A-Z]`), an ASCII lowercase letter (`[a-z]`), and a
Unicode decimal digit (category Nd, what Python's `\d` matches).  Both
functions are pure and also return a human-readable reason string. -/
theorem c8_validators_amended (u p : String) :
    ((validate_username u).1 = true ↔
      (3 ≤ u.length ∧ u.length ≤ 20 ∧
        (if u.toList.getLast? = some '\n' then u.toList.dropLast else u.toList) ≠ [] ∧
        ∀ c ∈ (if u.toList.getLast? = some '\n' then u.toList.dropLast else u.toList),
          ('a' ≤ c ∧ c ≤ 'z') ∨ ('A' ≤ c ∧ c ≤ 'Z') ∨ ('0' ≤ c ∧ c ≤ '9') ∨ c = '_')) ∧
    ((validate_password p).1 = true ↔
      (8 ≤ p.length ∧
        (∃ c ∈ p.toList, 'A' ≤ c ∧ c ≤ 'Z') ∧
        (∃ c ∈ p.toList, 'a' ≤ c ∧ c ≤ 'z') ∧
        (∃ c ∈ p.toList, isNdDigit c = true))) := by
  constructor
  · obtain ⟨L, hL⟩ :
        ∃ L, L = (if u.toList.getLast? = some '\n' then u.toList.dropLast else u.toList) :=
      ⟨_, rfl⟩
    rw [← hL]
    have hcore : matchUsernameRe u = true ↔
        (L ≠ [] ∧ ∀ c ∈ L,
          ('a' ≤ c ∧ c ≤ 'z') ∨ ('A' ≤ c ∧ c ≤ 'Z') ∨ ('0' ≤ c ∧ c ≤ '9') ∨ c = '_') := by
      rw [matchUsernameRe]
      rw [← hL]
      simp only [Bool.and_eq_true, Bool.not_eq_true', List.isEmpty_eq_false,
        List.all_eq_true, usernameChar_iff]
    simp only [validate_username]
    split_ifs with h1 h2 h3
    · constructor
      · intro hf
        exact absurd hf (by decide)
      · rintro ⟨h4, -⟩
        omega
    · constructor
      · intro hf
        exact absurd hf (by decide)
      · rintro ⟨-, h4, -⟩
        omega
    · rw [Bool.not_eq_true'] at h3
      constructor
      · intro hf
        exact absurd hf (by decide)
      · rintro ⟨-, -, hc1, hc2⟩
        have : matchUsernameRe u = true := hcore.mpr ⟨hc1, hc2⟩
        rw [h3] at this
        exact absurd this (by decide)
    · rw [Bool.not_eq_true', Bool.not_eq_false] at h3
      constructor
      · intro
        exact ⟨by omega, by omega, (hcore.mp h3).1, (hcore.mp h3).2⟩
      · intro
        rfl
  · simp only [validate_password]
    split_ifs with h1 h2 h3 h4
    · constructor
      · intro hf
        exact absurd hf (by decide)
      · rintro ⟨h5, -⟩
        omega
    · rw [Bool.not_eq_true', List.any_eq_false] at h2
      constructor
      · intro hf
        exact absurd hf (by decide)
      · rintro ⟨-, ⟨c, hc1, hc2, hc3⟩, -⟩
        have := h2 c hc1
        simp [hc2, hc3] at this
    · rw [Bool.not_eq_true', List.any_eq_false] at h3
      constructor
      · intro hf
        exact absurd hf (by decide)
      · rintro ⟨-, -, ⟨c, hc1, hc2, hc3⟩, -⟩
        have := h3 c hc1
        simp [hc2, hc3] at this
    · rw [Bool.not_eq_true', List.any_eq_false] at h4
      constructor
      · intro hf
        exact absurd hf (by decide)
      · rintro ⟨-, -, -, c, hc1, hc2⟩
        exact absurd hc2 (h4 c hc1)
    · rw [Bool.not_eq_true', Bool.not_eq_false, List.any_eq_true] at h2 h3 h4
      constructor
      · intro
        refine ⟨by omega, ?_, ?_, ?_⟩
        · obtain ⟨c, hc1, hc2⟩ := h2
          exact ⟨c, hc1, by simpa [Bool.and_eq_true, decide_eq_true_eq] using hc2⟩
        · obtain ⟨c, hc1, hc2⟩ := h3
          exact ⟨c, hc1, by simpa [Bool.and_eq_true, decide_eq_true_eq] using hc2⟩
        · obtain ⟨c, hc1, hc2⟩ := h4
          exact ⟨c, hc1, hc2⟩
      · intro
        rfl

/-- The repaired fidelity point itself: a password whose only digit is the
non-ASCII Unicode decimal digit ARABIC-INDIC DIGIT THREE (U+0663) passes
`validate_password`, as it does in the program, where `re.search(r'\d', s)`
matches any category-Nd character. -/
theorem validate_password_unicode_digit :
    (validate_password "Aaaaaaa٣").1 = true := by decide

/-! ### C3: the dashboard listing -/

theorem likeMatch_percent (ps cs : List Char) :
    likeMatch ('%' :: ps) cs = true ↔
      ∃ i, i ≤ cs.length ∧ likeMatch ps (cs.drop i) = true := by
  have h0 : likeMatch ('%' :: ps) cs
      = (List.range (cs.length + 1)).any (fun i => likeMatch ps (cs.drop i)) := rfl
  rw [h0, List.any_eq_true]
  constructor
  · rintro ⟨i, hi, h⟩
    exact ⟨i, by simpa [Nat.lt_succ_iff] using List.mem_range.mp hi, h⟩
  · rintro ⟨i, hi, h⟩
    exact ⟨i, List.mem_range.mpr (by omega), h⟩

theorem likeMatch_literal_percent (q : List Char) (ds : List Char)
    (hq : ∀ c ∈ q, c ≠ '%' ∧ c ≠ '_') :
    likeMatch (q ++ ['%']) ds = true ↔
      ∃ j, j ≤ ds.length ∧ (ds.take j).map Char.toLower = q.map Char.toLower := by
  induction q generalizing ds with
  | nil =>
    simp only [List.nil_append, List.map_nil]
    rw [likeMatch_percent]
    constructor
    · rintro -
      exact ⟨0, Nat.zero_le _, by simp⟩
    · rintro -
      refine ⟨ds.length, le_refl _, ?_⟩
      have h0 : likeMatch [] (ds.drop ds.length) = (ds.drop ds.length).isEmpty := rfl
      rw [h0]
      simp
  | cons a q ih =>
    have ha := hq a (List.mem_cons_self a q)
    cases ds with
    | nil =>
      rw [List.cons_append]
      have h0 : likeMatch (a :: (q ++ ['%'])) []
          = if a = '%' then
              (List.range (List.length ([] : List Char) + 1)).any
                (fun i => likeMatch (q ++ ['%']) (List.drop i []))
            else false := rfl
      rw [h0, if_neg ha.1]
      constructor
      · intro h
        exact absurd h (by decide)
      · rintro ⟨j, hj, hmap⟩
        have hj0 : j = 0 := Nat.le_zero.mp hj
        subst hj0
        simp at hmap
    | cons c cs =>
      rw [List.cons_append]
      have h0 : likeMatch (a :: (q ++ ['%'])) (c :: cs)
          = if a = '%' then
              (List.range ((c :: cs).length + 1)).any
                (fun i => likeMatch (q ++ ['%']) ((c :: cs).drop i))
            else ((a == '_' || a.toLower == c.toLower) && likeMatch (q ++ ['%']) cs) := rfl
      rw [h0, if_neg ha.1]
      have ha2 : (a == '_') = false := by simpa using ha.2
      rw [Bool.and_eq_true, ha2, Bool.false_or,
        ih cs (fun x hx => hq x (List.mem_cons_of_mem a hx)), beq_iff_eq]
      constructor
      · rintro ⟨hlow, j, hj, hmap⟩
        refine ⟨j + 1, by simpa using Nat.succ_le_succ hj, ?_⟩
        rw [List.take_succ_cons, List.map_cons, List.map_cons, hmap, hlow]
      · rintro ⟨j, hj, hmap⟩
        cases j with
        | zero => simp at hmap
        | succ j =>
          rw [List.take_succ_cons, List.map_cons, List.map_cons] at hmap
          obtain ⟨h1, h2⟩ := List.cons.inj hmap
          exact ⟨h1.symm, j, by simpa using Nat.le_of_succ_le_succ hj, h2⟩

/-- For queries free of the SQL wildcards `%` and `_`, `LIKE '%q%'` is
exactly ASCII case-insensitive substring containment. -/
theorem titleLike_substring (title q : String)
    (hq : ∀ c ∈ q.toList, c ≠ '%' ∧ c ≠ '_') :
    titleLike title q = true ↔
      ∃ l r, title.toList.map Char.toLower
        = l ++ q.toList.map Char.toLower ++ r := by
  unfold titleLike
  rw [likeMatch_percent]
  constructor
  · rintro ⟨i, hi, h⟩
    rw [likeMatch_literal_percent q.toList _ hq] at h
    obtain ⟨j, hj, hmap⟩ := h
    refine ⟨(title.toList.take i).map Char.toLower,
      ((title.toList.drop i).drop j).map Char.toLower, ?_⟩
    conv_lhs => rw [← List.take_append_drop i title.toList]
    conv_lhs => rw [← List.take_append_drop j (title.toList.drop i)]
    rw [List.map_append, List.map_append, hmap, List.append_assoc]
  · rintro ⟨l, r, h⟩
    have hlen : title.toList.length = l.length + q.toList.length + r.length := by
      have h2 := congrArg List.length h
      simp only [List.length_append, List.length_map] at h2
      omega
    refine ⟨l.length, by omega, ?_⟩
    rw [likeMatch_literal_percent q.toList _ hq]
    refine ⟨q.toList.length, ?_, ?_⟩
    · rw [List.length_drop]
      omega
    · rw [List.map_take, List.map_drop, h, List.append_assoc, List.drop_left]
      have hlm : q.toList.length = (q.toList.map Char.toLower).length :=
        (List.length_map _ _).symm
      rw [hlm, List.take_left]

/-- C3 counterexample: SQLAlchemy's `contains` does not escape SQL `LIKE`
wildcards, so the query `"_"` matches the title `"x"` (underscore matches
any single character) and the task is listed, although `"x"` does not
contain `"_"` as a substring in any letter case; the claim is therefore
false as stated for queries holding `%` or `_`. -/
theorem c3_search_like_cex :
    (⟨1, "x", "", false, 0, 0, 1⟩ : Task) ∈ dashboard_tasks [⟨1, "x", "", false, 0, 0, 1⟩] 1 "_" ∧
    ¬ ∃ l r, "x".toList.map Char.toLower = l ++ "_".toList.map Char.toLower ++ r := by
  constructor
  · decide
  · rintro ⟨l, r, h⟩
    have hlen := congrArg List.length h
    simp [List.length_append, List.length_map] at hlen
    have hl : l = [] := List.eq_nil_of_length_eq_zero (by omega)
    have hr : r = [] := List.eq_nil_of_length_eq_zero (by omega)
    subst hl
    subst hr
    revert h
    decide

/-- C3 amended: `dashboard_tasks` returns exactly the session user's tasks
whose title matches the search query under SQL `LIKE '%query%'` semantics
(ASCII case-insensitive, with `%` matching any run and `_` any single
character), ordered newest-created-first; a blank (stripped-empty) query
returns all of the user's tasks in that order; and for queries containing
no `%` or `_` the `LIKE` match coincides exactly with case-insensitive
substring containment claimed by the specification. -/
theorem c3_search_listing (tasks : List Task) (uid : Nat) (q : String) :
    (∀ t : Task, t ∈ dashboard_tasks tasks uid q ↔
      (t ∈ tasks ∧ t.user_id = uid ∧
        (pyStrip q = "" ∨ titleLike t.title (pyStrip q) = true))) ∧
    List.Sorted (fun a b => b.created_at ≤ a.created_at) (dashboard_tasks tasks uid q) ∧
    (∀ title query : String, (∀ c ∈ query.toList, c ≠ '%' ∧ c ≠ '_') →
      (titleLike title query = true ↔
        ∃ l r, title.toList.map Char.toLower
          = l ++ query.toList.map Char.toLower ++ r)) := by
  refine ⟨?_, ?_, fun title query hq => titleLike_substring title query hq⟩
  · intro t
    simp only [dashboard_tasks]
    rw [List.Perm.mem_iff (List.perm_insertionSort _ _)]
    by_cases hq0 : pyStrip q = ""
    · rw [if_pos hq0]
      simp only [List.mem_filter, beq_iff_eq]
      constructor
      · rintro ⟨h1, h2⟩
        exact ⟨h1, h2, Or.inl hq0⟩
      · rintro ⟨h1, h2, -⟩
        exact ⟨h1, h2⟩
    · rw [if_neg hq0]
      simp only [List.mem_filter, beq_iff_eq]
      constructor
      · rintro ⟨⟨h1, h2⟩, h3⟩
        exact ⟨h1, h2, Or.inr h3⟩
      · rintro ⟨h1, h2, h3 | h3⟩
        · exact absurd h3 hq0
        · exact ⟨⟨h1, h2⟩, h3⟩
  · show List.Sorted taskNewerFirst _
    exact List.sorted_insertionSort taskNewerFirst _

/-- Witness for C3: the query `"ELL"` finds the task titled `"Hello"`
(case-insensitively) for its owner. -/
theorem c3_search_listing_witness :
    (⟨2, "Hello", "", false, 5, 0, 1⟩ : Task) ∈ dashboard_tasks
      [⟨1, "x", "", false, 0, 0, 1⟩, ⟨2, "Hello", "", false, 5, 0, 1⟩] 1 "ELL" :=
  ((c3_search_listing [⟨1, "x", "", false, 0, 0, 1⟩, ⟨2, "Hello", "", false, 5, 0, 1⟩]
      1 "ELL").1 ⟨2, "Hello", "", false, 5, 0, 1⟩).mpr
    ⟨by decide, rfl, Or.inr (by decide)⟩

end TodoApp
